import Mathlib

/-!
Shallow embedding of the `WlEc2Stack` CDK stack declaration (src/index.ts).

The source program is a single linear construction of AWS resource
descriptors: an IAM role, a VPC with one public and one private subnet,
a carrier gateway, a Wavelength-zone private subnet (pushed into the
VPC's private-subnet list), a default route through the carrier gateway,
a security group with three ingress rules, an instance profile, a launch
template and an EC2 instance, plus one stack output.  Each descriptor is
embedded as a Lean structure; synthesis-time tokens (resource ids,
attribute references) are embedded as the symbolic type `Ref`, indexed by
the construct id that generates them.
-/

/-- Synthesis-time reference token: an identifier or attribute of a
resource, generated for the construct with the given construct id. -/
inductive Ref where
  | vpcId (constructId : String)
  | subnetId (constructId : String)
  | routeTableId (constructId : String)
  | carrierGatewayRef (constructId : String)
  | securityGroupId (constructId : String)
  | roleName (constructId : String)
  | instanceProfileArn (constructId : String)
  | launchTemplateDefaultVersion (constructId : String)
  | instancePublicDnsName (constructId : String)
  | amazonLinuxImageId
  deriving DecidableEq

/-- `ec2.SubnetType` as used in the VPC's subnet configuration. -/
inductive SubnetType where
  | PUBLIC
  | PRIVATE
  deriving DecidableEq

/-- One entry of the VPC's `subnetConfiguration` array. -/
structure SubnetConfiguration where
  subnetType : SubnetType
  name : String
  cidrMask : Nat
  deriving DecidableEq

/-- Props passed to the `ec2.Vpc` constructor. -/
structure VpcProps where
  cidr : String
  maxAzs : Nat
  subnetConfiguration : List SubnetConfiguration
  deriving DecidableEq

/-- A subnet resource (`ec2.PublicSubnet` / `ec2.PrivateSubnet`): each
subnet carries its availability zone, CIDR block, owning VPC reference,
public-IP mapping flag, and its own route table and subnet id tokens. -/
structure Subnet where
  constructId : String
  subnetType : SubnetType
  availabilityZone : String
  cidrBlock : String
  vpcId : Ref
  mapPublicIpOnLaunch : Bool
  routeTableId : Ref
  subnetId : Ref
  deriving DecidableEq

/-- The `ec2.Vpc` resource together with the subnets it created. -/
structure Vpc where
  constructId : String
  cidr : String
  maxAzs : Nat
  subnetConfiguration : List SubnetConfiguration
  vpcId : Ref
  publicSubnets : List Subnet
  privateSubnets : List Subnet
  deriving DecidableEq

/-- Dotted-quad rendering of a 32-bit address value. -/
def natToIpv4 (n : Nat) : String :=
  toString (n / 16777216 % 256) ++ "." ++ toString (n / 65536 % 256) ++ "." ++
    toString (n / 256 % 256) ++ "." ++ toString (n % 256)

/-- Split a character list at every occurrence of the separator. -/
def splitOnChar (c : Char) : List Char → List (List Char)
  | [] => [[]]
  | x :: xs =>
    let r := splitOnChar c xs
    if x == c then [] :: r
    else
      match r with
      | [] => [[x]]
      | y :: ys => (x :: y) :: ys

/-- Decimal value of a digit character. -/
def digitVal (c : Char) : Option Nat :=
  if 48 ≤ c.toNat && c.toNat ≤ 57 then some (c.toNat - 48) else none

/-- Accumulating decimal reading of a digit string. -/
def digitsToNatAux : Nat → List Char → Option Nat
  | acc, [] => some acc
  | acc, c :: cs =>
    match digitVal c with
    | some d => digitsToNatAux (acc * 10 + d) cs
    | none => none

/-- Read a nonempty decimal digit string. -/
def digitsToNat : List Char → Option Nat
  | [] => none
  | cs => digitsToNatAux 0 cs

/-- Parse a dotted-quad IPv4 address into its 32-bit value. -/
def ipv4ToNat (cs : List Char) : Option Nat :=
  match (splitOnChar (Char.ofNat 46) cs).map digitsToNat with
  | [some a, some b, some c, some d] =>
    if a < 256 && b < 256 && c < 256 && d < 256 then
      some (((a * 256 + b) * 256 + c) * 256 + d)
    else none
  | _ => none

/-- Parse a CIDR string `a.b.c.d/m` into (address value, mask length). -/
def parseCidr (s : String) : Option (Nat × Nat) :=
  match splitOnChar (Char.ofNat 47) s.data with
  | [ip, m] =>
    match ipv4ToNat ip, digitsToNat m with
    | some base, some len => if len ≤ 32 then some (base, len) else none
    | _, _ => none
  | _ => none

/-- The block `inner` lies inside the block `outer`: the outer mask is no
longer than the inner one and both agree on the outer network bits. -/
def cidrContainsB (outer inner : Nat × Nat) : Bool :=
  Nat.ble outer.2 inner.2 &&
    (inner.1 / 2 ^ (32 - outer.2) == outer.1 / 2 ^ (32 - outer.2))

/-- The blocks `x` and `y` share no address: they differ on the network
bits of the shorter mask. -/
def cidrDisjointB (x y : Nat × Nat) : Bool :=
  let p := min x.2 y.2
  !(x.1 / 2 ^ (32 - p) == y.1 / 2 ^ (32 - p))

/-- String-level CIDR containment (false when either side fails to parse). -/
def cidrWithin (inner outer : String) : Bool :=
  match parseCidr inner, parseCidr outer with
  | some i, some o => cidrContainsB o i
  | _, _ => false

/-- String-level CIDR disjointness (false when either side fails to parse). -/
def cidrApart (x y : String) : Bool :=
  match parseCidr x, parseCidr y with
  | some a, some b => cidrDisjointB a b
  | _, _ => false

/-- An address value belongs to a CIDR block. -/
def inCidr (addr : Nat) (c : Nat × Nat) : Prop :=
  addr / 2 ^ (32 - c.2) = c.1 / 2 ^ (32 - c.2)

/-- Availability-zone name the toolkit assigns to the i-th zone of a
region (`<region>a`, `<region>b`, ...). -/
def subnetAzName (region : String) (i : Nat) : String :=
  region ++ String.mk [Char.ofNat (97 + i)]

/-- Build one VPC-owned subnet for a configuration entry and AZ index,
with the construct id, route table and subnet id the toolkit generates. -/
def mkVpcSubnet (vpcConstructId : String) (vpcId : Ref) (region : String)
    (entry : SubnetConfiguration) (azIndex : Nat) (cidr : String) : Subnet :=
  let cid := vpcConstructId ++ "/" ++ entry.name ++ "Subnet" ++ toString (azIndex + 1)
  { constructId := cid
    subnetType := entry.subnetType
    availabilityZone := subnetAzName region azIndex
    cidrBlock := cidr
    vpcId := vpcId
    mapPublicIpOnLaunch := entry.subnetType == SubnetType.PUBLIC
    routeTableId := Ref.routeTableId cid
    subnetId := Ref.subnetId cid }

/-- Sequential subnet allocation of the `ec2.Vpc` construct: walking the
configuration entries in order, each entry receives `maxAzs` consecutive
blocks of size `2 ^ (32 - cidrMask)` carved from the VPC block. -/
def buildSubnets (vpcConstructId : String) (vpcId : Ref) (region : String)
    (maxAzs : Nat) (base : Nat) : List SubnetConfiguration → List Subnet
  | [] => []
  | e :: rest =>
    let sz := 2 ^ (32 - e.cidrMask)
    ((List.range maxAzs).map fun i =>
      mkVpcSubnet vpcConstructId vpcId region e i
        (natToIpv4 (base + i * sz) ++ "/" ++ toString e.cidrMask)) ++
      buildSubnets vpcConstructId vpcId region maxAzs (base + maxAzs * sz) rest

/-- The `ec2.Vpc` constructor: creates one subnet per configuration entry
per availability zone and sorts them into the public and private lists. -/
def Vpc.make (constructId : String) (region : String) (props : VpcProps) : Vpc :=
  let vpcId := Ref.vpcId constructId
  let base := ((parseCidr props.cidr).getD (0, 0)).1
  let subs := buildSubnets constructId vpcId region props.maxAzs base props.subnetConfiguration
  { constructId
    cidr := props.cidr
    maxAzs := props.maxAzs
    subnetConfiguration := props.subnetConfiguration
    vpcId
    publicSubnets := subs.filter fun s => s.subnetType == SubnetType.PUBLIC
    privateSubnets := subs.filter fun s => s.subnetType == SubnetType.PRIVATE }

/-- All subnets of a VPC, public then private. -/
def Vpc.allSubnets (v : Vpc) : List Subnet :=
  v.publicSubnets ++ v.privateSubnets

/-- The `ec2.PrivateSubnet` constructor used for the Wavelength subnet:
a standalone private subnet with its own route table. -/
def PrivateSubnet.make (constructId availabilityZone cidrBlock : String)
    (vpcId : Ref) (mapPublicIpOnLaunch : Bool) : Subnet :=
  { constructId
    subnetType := SubnetType.PRIVATE
    availabilityZone
    cidrBlock
    vpcId
    mapPublicIpOnLaunch
    routeTableId := Ref.routeTableId constructId
    subnetId := Ref.subnetId constructId }

/-- The IAM role (`iam.Role`) with its trust principal. -/
structure Role where
  constructId : String
  assumedBy : String
  roleName : Ref
  deriving DecidableEq

/-- The `ec2.CfnCarrierGateway` resource. -/
structure CfnCarrierGateway where
  constructId : String
  vpcId : Ref
  ref : Ref
  deriving DecidableEq

/-- The `ec2.CfnRoute` resource: one route table entry. -/
structure CfnRoute where
  constructId : String
  destinationCidrBlock : String
  routeTableId : Ref
  carrierGatewayId : Ref
  deriving DecidableEq

/-- `ec2.Peer.anyIpv4()`. -/
def Peer.anyIpv4 : String := "0.0.0.0/0"

/-- `ec2.Port`: protocol plus port (or ICMP type/code) range. -/
structure Port where
  protocol : String
  fromPort : Int
  toPort : Int
  deriving DecidableEq

/-- `ec2.Port.tcp(n)`: a single TCP port. -/
def Port.tcp (n : Int) : Port :=
  { protocol := "tcp", fromPort := n, toPort := n }

/-- `ec2.Port.icmpPing()`: ICMP type 8 (echo request), any code. -/
def Port.icmpPing : Port :=
  { protocol := "icmp", fromPort := 8, toPort := -1 }

/-- One security group ingress rule. -/
structure IngressRule where
  peer : String
  port : Port
  description : String
  deriving DecidableEq

/-- The `ec2.SecurityGroup` resource. -/
structure SecurityGroup where
  constructId : String
  allowAllOutbound : Bool
  securityGroupName : String
  securityGroupId : Ref
  ingressRules : List IngressRule
  deriving DecidableEq

/-- `securityGroup.addIngressRule(peer, port, description)`: appends one
ingress rule. -/
def SecurityGroup.addIngressRule (sg : SecurityGroup) (peer : String)
    (port : Port) (description : String) : SecurityGroup :=
  { sg with ingressRules := sg.ingressRules ++ [{ peer, port, description }] }

/-- The `iam.CfnInstanceProfile` resource. -/
structure CfnInstanceProfile where
  constructId : String
  roles : List Ref
  attrArn : Ref
  deriving DecidableEq

/-- One entry of the launch template's `networkInterfaces` array. -/
structure NetworkInterface where
  deviceIndex : Nat
  associateCarrierIpAddress : Bool
  groups : List Ref
  deleteOnTermination : Bool
  subnetId : Ref
  deriving DecidableEq

/-- The launch template's `launchTemplateData` block. -/
structure LaunchTemplateData where
  networkInterfaces : List NetworkInterface
  imageId : Ref
  instanceType : String
  keyName : String
  iamInstanceProfileArn : Ref
  deriving DecidableEq

/-- The `ec2.CfnLaunchTemplate` resource. -/
structure CfnLaunchTemplate where
  constructId : String
  launchTemplateName : String
  launchTemplateData : LaunchTemplateData
  attrDefaultVersionNumber : Ref
  deriving DecidableEq

/-- The instance's `launchTemplate` specification (name plus version). -/
structure LaunchTemplateSpecification where
  launchTemplateName : String
  version : Ref
  deriving DecidableEq

/-- The `ec2.CfnInstance` resource. -/
structure CfnInstance where
  constructId : String
  launchTemplate : LaunchTemplateSpecification
  availabilityZone : String
  attrPublicDnsName : Ref
  deriving DecidableEq

/-- A `cdk.CfnOutput` declaration. -/
structure CfnOutput where
  constructId : String
  value : Ref
  deriving DecidableEq

/-- The environment configuration read from `process.env`. -/
structure EnvConfig where
  account : String
  region : String
  deriving DecidableEq

/-- The hardcoded Wavelength availability zone of src/index.ts line 15. -/
def wavelengthAZ : String := "us-west-2-wl1-sfo-wlz-1"

/-- The VPC props of src/index.ts lines 28-43: block 10.0.0.0/16, one
availability zone, one public and one private /24 subnet. -/
def appVpcProps : VpcProps :=
  { cidr := "10.0.0.0/16"
    maxAzs := 1
    subnetConfiguration := [
      { subnetType := SubnetType.PUBLIC, name := "Public", cidrMask := 24 },
      { subnetType := SubnetType.PRIVATE, name := "Private", cidrMask := 24 }] }

/-- The VPC as the `ec2.Vpc` constructor returns it, before the edge
subnet is pushed into its private-subnet list. -/
def configuredVpc (region : String) : Vpc :=
  Vpc.make "AppVPC" region appVpcProps

/-- The complete resource graph built by the `WlEc2Stack` constructor. -/
structure WlEc2Stack where
  env : EnvConfig
  role : Role
  vpc : Vpc
  cagw : CfnCarrierGateway
  wlPrivateSubnet : Subnet
  routes : List CfnRoute
  securityGroup : SecurityGroup
  instanceProfile : CfnInstanceProfile
  wlLaunchTemplate : CfnLaunchTemplate
  wlEc2Instance : CfnInstance
  outputs : List CfnOutput
  deriving DecidableEq

/-- The `WlEc2Stack` constructor body (src/index.ts lines 17-144),
resource by resource in source order; `account` and `region` are the two
environment values read at construction time. -/
def WlEc2Stack.construct (account region : String) : WlEc2Stack :=
  let role : Role :=
    { constructId := "wlz-ec2-demo-role"
      assumedBy := "ec2.amazonaws.com"
      roleName := Ref.roleName "wlz-ec2-demo-role" }
  let vpc := Vpc.make "AppVPC" region appVpcProps
  let cagw : CfnCarrierGateway :=
    { constructId := "wlz-ec2-cagw"
      vpcId := vpc.vpcId
      ref := Ref.carrierGatewayRef "wlz-ec2-cagw" }
  let wlPrivateSubnet :=
    PrivateSubnet.make "wlz-private-subnet" wavelengthAZ "10.0.2.0/26" vpc.vpcId false
  let vpcAfterPush := { vpc with privateSubnets := vpc.privateSubnets ++ [wlPrivateSubnet] }
  let wlzRoute : CfnRoute :=
    { constructId := "wlz-route"
      destinationCidrBlock := "0.0.0.0/0"
      routeTableId := wlPrivateSubnet.routeTableId
      carrierGatewayId := cagw.ref }
  let securityGroup : SecurityGroup :=
    { constructId := "wlz-sg"
      allowAllOutbound := true
      securityGroupName := "wlz-sg"
      securityGroupId := Ref.securityGroupId "wlz-sg"
      ingressRules := [] }
  let securityGroup :=
    securityGroup.addIngressRule Peer.anyIpv4 (Port.tcp 22) "Allows SSH access from bastion"
  let securityGroup :=
    securityGroup.addIngressRule Peer.anyIpv4 (Port.tcp 5000) "Allows HTTP access from carrier network"
  let securityGroup :=
    securityGroup.addIngressRule Peer.anyIpv4 Port.icmpPing "Allows ICMP pings from carrier devices"
  let instanceProfile : CfnInstanceProfile :=
    { constructId := "wlz-instance-profile"
      roles := [role.roleName]
      attrArn := Ref.instanceProfileArn "wlz-instance-profile" }
  let wlLaunchTemplate : CfnLaunchTemplate :=
    { constructId := "wl-launch-template"
      launchTemplateName := "wl-launch-template"
      launchTemplateData :=
        { networkInterfaces := [
            { deviceIndex := 0
              associateCarrierIpAddress := true
              groups := [securityGroup.securityGroupId]
              deleteOnTermination := true
              subnetId := wlPrivateSubnet.subnetId }]
          imageId := Ref.amazonLinuxImageId
          instanceType := "t3.medium"
          keyName := "wl-cdk-demo-1"
          iamInstanceProfileArn := instanceProfile.attrArn }
      attrDefaultVersionNumber := Ref.launchTemplateDefaultVersion "wl-launch-template" }
  let wlEc2Instance : CfnInstance :=
    { constructId := "wlz-ec2-instance"
      launchTemplate :=
        { launchTemplateName := wlLaunchTemplate.launchTemplateName
          version := wlLaunchTemplate.attrDefaultVersionNumber }
      availabilityZone := wavelengthAZ
      attrPublicDnsName := Ref.instancePublicDnsName "wlz-ec2-instance" }
  { env := { account, region }
    role
    vpc := vpcAfterPush
    cagw
    wlPrivateSubnet
    routes := [wlzRoute]
    securityGroup
    instanceProfile
    wlLaunchTemplate
    wlEc2Instance
    outputs := [{ constructId := "wlz-instance-publicDNS:", value := wlEc2Instance.attrPublicDnsName }] }

/-- Identifier tokens generated by resources of the stack: the VPC id,
the role name, the gateway reference, the security group id, the
instance profile arn, the launch template default version, the instance
DNS attribute, and every subnet's subnet id and route table id. -/
def declaredIds (s : WlEc2Stack) : List Ref :=
  s.vpc.vpcId :: s.role.roleName :: s.cagw.ref :: s.securityGroup.securityGroupId ::
    s.instanceProfile.attrArn :: s.wlLaunchTemplate.attrDefaultVersionNumber ::
    s.wlEc2Instance.attrPublicDnsName ::
    ((s.vpc.allSubnets.map fun sub => sub.subnetId) ++
      (s.vpc.allSubnets.map fun sub => sub.routeTableId))

/-- Identifier tokens consumed downstream in the stack: the VPC id used
by the gateway and the edge subnet, each route's table and gateway
references, the launch template's subnet ids, group ids and profile arn,
the instance profile's role names, the instance's template version, and
each output's value. -/
def referencedIds (s : WlEc2Stack) : List Ref :=
  s.cagw.vpcId :: s.wlPrivateSubnet.vpcId ::
    ((s.routes.map fun r => r.routeTableId) ++
      (s.routes.map fun r => r.carrierGatewayId) ++
      (s.wlLaunchTemplate.launchTemplateData.networkInterfaces.map fun ni => ni.subnetId) ++
      ((s.wlLaunchTemplate.launchTemplateData.networkInterfaces.map fun ni => ni.groups).flatten) ++
      s.instanceProfile.roles ++
      [s.wlLaunchTemplate.launchTemplateData.iamInstanceProfileArn,
        s.wlEc2Instance.launchTemplate.version] ++
      (s.outputs.map fun o => o.value))

/-- C1: the security group carries exactly three ingress rules, in order
TCP port 22, TCP port 5000 and ICMP echo (ping), each with source peer
any IPv4 address (0.0.0.0/0). -/
theorem c1_securityGroup_ingress_rules (account region : String) :
    (WlEc2Stack.construct account region).securityGroup.ingressRules.length = 3 ∧
    ((WlEc2Stack.construct account region).securityGroup.ingressRules.map
        fun r => (r.peer, r.port)) =
      [(Peer.anyIpv4, Port.tcp 22), (Peer.anyIpv4, Port.tcp 5000),
        (Peer.anyIpv4, Port.icmpPing)] ∧
    Peer.anyIpv4 = "0.0.0.0/0" :=
  ⟨rfl, rfl, rfl⟩

/-- C2: the declaration adds exactly one route, and it has destination
0.0.0.0/0, gateway field the carrier gateway's reference, and route
table the edge subnet's route table. -/
theorem c2_wlz_route (account region : String) :
    (WlEc2Stack.construct account region).routes.length = 1 ∧
    ((WlEc2Stack.construct account region).routes.map fun r => r.destinationCidrBlock) =
      ["0.0.0.0/0"] ∧
    ((WlEc2Stack.construct account region).routes.map fun r => r.carrierGatewayId) =
      [(WlEc2Stack.construct account region).cagw.ref] ∧
    ((WlEc2Stack.construct account region).routes.map fun r => r.routeTableId) =
      [(WlEc2Stack.construct account region).wlPrivateSubnet.routeTableId] :=
  ⟨rfl, rfl, rfl, rfl⟩

/-- C3: the launch template has a single network interface with
associateCarrierIpAddress true and subnetId the edge subnet's id, which
differs from the ids of all the subnets the VPC itself configured. -/
theorem c3_launchTemplate_network_interface (account region : String) :
    ((WlEc2Stack.construct account region).wlLaunchTemplate.launchTemplateData.networkInterfaces.map
        fun ni => (ni.associateCarrierIpAddress, ni.subnetId)) =
      [(true, (WlEc2Stack.construct account region).wlPrivateSubnet.subnetId)] ∧
    ((configuredVpc region).allSubnets.all
        fun sub => sub.subnetId != (WlEc2Stack.construct account region).wlPrivateSubnet.subnetId) =
      true :=
  ⟨rfl, rfl⟩

/-- The stack constructed for account 111111111111 in region us-west-2,
the end-to-end scenario of the spec. -/
def wlEc2StackDemo : WlEc2Stack :=
  WlEc2Stack.construct "111111111111" "us-west-2"

/-- C4: for account 111111111111 and region us-west-2, the instance
resource's availability zone equals the configured edge zone
us-west-2-wl1-sfo-wlz-1 and the single output's value is the instance's
public DNS attribute reference. -/
theorem c4_demo_zone_and_output :
    wlEc2StackDemo.wlEc2Instance.availabilityZone = wavelengthAZ ∧
    wavelengthAZ = "us-west-2-wl1-sfo-wlz-1" ∧
    (wlEc2StackDemo.outputs.map fun o => o.value) =
      [wlEc2StackDemo.wlEc2Instance.attrPublicDnsName] :=
  ⟨rfl, rfl, rfl⟩

/-- C5: after construction the VPC's subnets are exactly the configured
ones plus the appended edge subnet: the total count is the configured
count plus one, the public list is unchanged, and the private list is
the single configured private subnet followed by the edge subnet. -/
theorem c5_subnet_collection (account region : String) :
    (WlEc2Stack.construct account region).vpc.publicSubnets.length +
        (WlEc2Stack.construct account region).vpc.privateSubnets.length =
      appVpcProps.subnetConfiguration.length * appVpcProps.maxAzs + 1 ∧
    (WlEc2Stack.construct account region).vpc.publicSubnets =
      (configuredVpc region).publicSubnets ∧
    (WlEc2Stack.construct account region).vpc.privateSubnets =
      (configuredVpc region).privateSubnets ++
        [(WlEc2Stack.construct account region).wlPrivateSubnet] ∧
    (configuredVpc region).privateSubnets.length = 1 :=
  ⟨rfl, rfl, rfl, rfl⟩

/-- C6: the instance profile references exactly one role, the role
created earlier in the same declaration. -/
theorem c6_instanceProfile_roles (account region : String) :
    (WlEc2Stack.construct account region).instanceProfile.roles =
      [(WlEc2Stack.construct account region).role.roleName] :=
  rfl

/-- C7: the two environment values are stored as the stack env, while
the edge-zone name and the key-pair name are the hardcoded constants
us-west-2-wl1-sfo-wlz-1 and wl-cdk-demo-1, identical whatever the
environment inputs are. -/
theorem c7_inputs_and_constants (account region account2 region2 : String) :
    (WlEc2Stack.construct account region).env = { account, region } ∧
    (WlEc2Stack.construct account region).wlLaunchTemplate.launchTemplateData.keyName =
      "wl-cdk-demo-1" ∧
    (WlEc2Stack.construct account region).wlEc2Instance.availabilityZone = wavelengthAZ ∧
    (WlEc2Stack.construct account region).wlPrivateSubnet.availabilityZone = wavelengthAZ ∧
    wavelengthAZ = "us-west-2-wl1-sfo-wlz-1" ∧
    (WlEc2Stack.construct account region).wlLaunchTemplate.launchTemplateData.keyName =
      (WlEc2Stack.construct account2 region2).wlLaunchTemplate.launchTemplateData.keyName ∧
    (WlEc2Stack.construct account region).wlEc2Instance.availabilityZone =
      (WlEc2Stack.construct account2 region2).wlEc2Instance.availabilityZone :=
  ⟨rfl, rfl, rfl, rfl, rfl, rfl, rfl⟩

/-- C8: every identifier token referenced downstream in the stack occurs
among the tokens generated by resources constructed in the same stack,
and the launch template name the instance uses is the name the launch
template declares; the graph has no dangling references. -/
theorem c8_no_dangling_references (account region : String) :
    ((referencedIds (WlEc2Stack.construct account region)).all
        fun x => (declaredIds (WlEc2Stack.construct account region)).contains x) = true ∧
    (WlEc2Stack.construct account region).wlEc2Instance.launchTemplate.launchTemplateName =
      (WlEc2Stack.construct account region).wlLaunchTemplate.launchTemplateName :=
  ⟨rfl, rfl⟩

/-- C9: the security group is constructed with allowAllOutbound true, so
all egress traffic is permitted. -/
theorem c9_allowAllOutbound (account region : String) :
    (WlEc2Stack.construct account region).securityGroup.allowAllOutbound = true :=
  rfl

/-- C10: the edge subnet has mapPublicIpOnLaunch false and CIDR block
10.0.2.0/26, which lies inside the VPC block 10.0.0.0/16 and is disjoint
from every /24 block the VPC allocated to its configured subnets. -/
theorem c10_edge_subnet_cidr (account region : String) :
    (WlEc2Stack.construct account region).wlPrivateSubnet.mapPublicIpOnLaunch = false ∧
    (WlEc2Stack.construct account region).wlPrivateSubnet.cidrBlock = "10.0.2.0/26" ∧
    (WlEc2Stack.construct account region).vpc.cidr = "10.0.0.0/16" ∧
    cidrWithin (WlEc2Stack.construct account region).wlPrivateSubnet.cidrBlock
        (WlEc2Stack.construct account region).vpc.cidr = true ∧
    ((configuredVpc region).allSubnets.all
        fun sub =>
          cidrApart sub.cidrBlock
            (WlEc2Stack.construct account region).wlPrivateSubnet.cidrBlock) = true :=
  ⟨rfl, rfl, rfl, rfl, rfl⟩
